import Mathlib

/-!
Verification of the LLM chat application worker (`src/index.ts`).

The worker is a request router plus a chat handler:
* `fetch` routes on `url.pathname` and `request.method`: non-API paths go to
  the asset collaborator, `POST /api/chat` goes to `handleChatRequest`,
  other methods on `/api/chat` get a 405, other API paths a 404.
* `handleChatRequest` parses the JSON body, extracts `messages` (defaulting
  to `[]`), prepends a fixed system message unless one is present, calls
  `env.AI.run` with a fixed model id, `max_tokens: 1024` and
  `returnRawResponse: true`, and relays the collaborator's response; any
  exception inside the `try` block is converted to a uniform 500 JSON error.

The embedding models JavaScript values and the exception behaviour of the
exact property accesses the source performs (destructuring a `null` body
throws, `.some` on a non-array throws, `.role` on a `null` element throws);
collaborators (`env.ASSETS.fetch`, `env.AI.run`) are parameters.
-/

namespace LlmChat

/-- A JSON value, as produced by `await request.json()` (i.e. `JSON.parse`
on the request body). Object field lists are the parse output, so keys are
distinct (`JSON.parse` collapses duplicate keys). -/
inductive Json : Type where
  | null : Json
  | bool (b : Bool) : Json
  | num (n : Int) : Json
  | str (s : String) : Json
  | arr (elems : List Json) : Json
  | obj (fields : List (String × Json)) : Json

/-- Property lookup on a parsed JSON object: `none` models the JavaScript
value `undefined` (the key is absent). -/
def lookupField (fields : List (String × Json)) (key : String) : Option Json :=
  match fields with
  | [] => none
  | (k, v) :: rest => if k == key then some v else lookupField rest key

/-- Model ID for Workers AI model (`MODEL_ID` in `src/index.ts`). -/
def MODEL_ID : String := "@cf/google/gemma-3-12b-it"

/-- Default system prompt (`SYSTEM_PROMPT` in `src/index.ts`), verbatim.
The TypeScript template literal opens and closes with a newline. -/
def SYSTEM_PROMPT : String := "
你是一名高中英语老师，现有一篇英语书信作文需要你批改，你需要对这篇作文评分(满分为15分)并找出文章中所有的拼写错误，用词不当以及语法错误；同时找出文章中的高级词汇，亮点表达；最后，你还需要为该同学提出写作进步的建议。
为了定位，请将文章中的所有错误的开始下标与结束下标返回；对于错误分析，请详细分析语法知识点并给出一定的正例与反例；对于亮点分析，请详细给出亮点的优秀之处。
作文：{essay}
输出格式如下（请严格按照分点和逻辑顺序输出）：

一、评分  
总分（满分15分）：xx分  

二、错误分析  
1. 拼写错误：列出所有拼写错误的词语、正确拼写，并标注在文章中的开始下标与结束下标。例如：“acheive”（应为“achieve”，位置12~19）  
2. 语法错误：详细分析存在的语法问题，说明所涉及的语法知识点，举出正例与反例加以说明  
3. 用词不当：指出不恰当的用词并解释原因，提供更合适的替代表达  

三、亮点分析  
1. 高级词汇：列出文中使用的高级词汇，并简要说明它们的高级之处  
2. 亮点表达：指出文中的优秀句式、逻辑结构或语言表达，并说明其亮点价值  

四、写作建议  
根据本次作文的表现，提出有针对性的提升建议，如句式多样性、语法掌握、逻辑结构等方面。
"

/-- The system message the handler prepends:
`{ role: "system", content: SYSTEM_PROMPT }`. -/
def systemMessage : Json :=
  .obj [("role", .str "system"), ("content", .str SYSTEM_PROMPT)]

/-- `const { messages = [] } = body`: destructuring `null` throws a
`TypeError`; on an object the `messages` property is looked up, with the
default `[]` applied when it is absent (`undefined`); property access on any
other JavaScript value (number, string, boolean, array) yields `undefined`,
so the default `[]` applies and no exception is raised. -/
def extractMessages (body : Json) : Except Unit Json :=
  match body with
  | .null => .error ()
  | .obj fields => .ok ((lookupField fields "messages").getD (.arr []))
  | _ => .ok (.arr [])

/-- One evaluation of the predicate `(msg) => msg.role === "system"`:
accessing `.role` on `null` throws; on an object it is the property value
(strict-equal to `"system"` exactly when it is that string); on any other
value `.role` is `undefined`, which is not `"system"`. -/
def roleIsSystem (msg : Json) : Except Unit Bool :=
  match msg with
  | .null => .error ()
  | .obj fields =>
      match lookupField fields "role" with
      | some (.str r) => .ok (r == "system")
      | _ => .ok false
  | _ => .ok false

/-- `elems.some((msg) => msg.role === "system")` on the underlying array:
short-circuiting left-to-right scan, propagating any exception raised by the
predicate. -/
def anySystem : List Json → Except Unit Bool
  | [] => .ok false
  | m :: rest =>
      match roleIsSystem m with
      | .error e => .error e
      | .ok true => .ok true
      | .ok false => anySystem rest

/-- Lines 85–87 of `src/index.ts`:
`if (!messages.some((msg) => msg.role === "system")) { messages.unshift({ role: "system", content: SYSTEM_PROMPT }); }`.
Calling `.some` on a non-array value throws a `TypeError` (`messages.some`
is `undefined`, or the property access itself throws on `null`). -/
def normalizeMessages (messages : Json) : Except Unit (List Json) :=
  match messages with
  | .arr elems =>
      match anySystem elems with
      | .error e => .error e
      | .ok true => .ok elems
      | .ok false => .ok (systemMessage :: elems)
  | _ => .error ()

/-- The argument tuple of the `env.AI.run` call in `handleChatRequest`:
model identifier, message list, `max_tokens`, and the `returnRawResponse`
option. -/
structure InferenceRequest : Type where
  model : String
  messages : List Json
  max_tokens : Nat
  returnRawResponse : Bool

/-- An HTTP response, as constructed by `new Response(body, init)`:
`status`, body text, and the explicitly supplied headers. Responses coming
from a collaborator are arbitrary values of this type. -/
structure Response : Type where
  status : Nat
  body : String
  headers : List (String × String)
deriving DecidableEq

/-- The uniform error response built in the `catch` block:
`new Response(JSON.stringify({ error: "Failed to process request" }), { status: 500, headers: { "content-type": "application/json" } })`. -/
def errorResponse : Response :=
  { status := 500
    body := "\x7b\"error\":\"Failed to process request\"\x7d"
    headers := [("content-type", "application/json")] }

/-- The `try` block of `handleChatRequest` up to (but not including) the
`env.AI.run` call: parse result of `await request.json()` (`none` means the
body was not valid JSON, so `request.json()` threw), destructuring of
`messages`, normalization, and assembly of the `env.AI.run` argument tuple.
Returns the inference request dispatched to the collaborator, or the
exception that reached the `catch` block first. -/
def chatPipeline (body : Option Json) : Except Unit InferenceRequest :=
  match body with
  | none => .error ()
  | some b =>
      match extractMessages b with
      | .error e => .error e
      | .ok messages =>
          match normalizeMessages messages with
          | .error e => .error e
          | .ok normalized =>
              .ok { model := MODEL_ID
                    messages := normalized
                    max_tokens := 1024
                    returnRawResponse := true }

/-- `handleChatRequest` (lines 74–118 of `src/index.ts`), with the inference
collaborator `env.AI.run` as a parameter (`.error` models the call
raising). The parsed body stands in for the request: `none` means
`await request.json()` throws. On success the collaborator's response is
returned unchanged; every exception inside the `try` block yields
`errorResponse`. -/
def handleChatRequest (ai : InferenceRequest → Except Unit Response)
    (body : Option Json) : Response :=
  match chatPipeline body with
  | .error _ => errorResponse
  | .ok req =>
      match ai req with
      | .ok response => response
      | .error _ => errorResponse

/-- JavaScript `String.prototype.startsWith`: code-unit prefix test. -/
def jsStartsWith (s pre : String) : Bool :=
  pre.data.isPrefixOf s.data

/-- An inbound request as the router consumes it: the parsed URL's
`pathname`, the HTTP `method`, and the JSON parse result of the body
(`none` when the body is not valid JSON). -/
structure Request : Type where
  pathname : String
  method : String
  body : Option Json

/-- The worker's `fetch` handler (lines 43–68 of `src/index.ts`), with the
asset collaborator `env.ASSETS.fetch` and the inference collaborator as
parameters:
`if (url.pathname === "/" || !url.pathname.startsWith("/api/")) return env.ASSETS.fetch(request);`
then `if (url.pathname === "/api/chat")` dispatch POST to
`handleChatRequest` and answer 405 otherwise; all remaining paths get 404. -/
def fetch (assets : Request → Response)
    (ai : InferenceRequest → Except Unit Response) (req : Request) : Response :=
  if req.pathname == "/" || !(jsStartsWith req.pathname "/api/") then
    assets req
  else if req.pathname == "/api/chat" then
    if req.method == "POST" then
      handleChatRequest ai req.body
    else
      { status := 405, body := "Method not allowed", headers := [] }
  else
    { status := 404, body := "Not found", headers := [] }

/-- A well-formed chat message, per the data model: a `role` and a
`content`, both text. -/
structure ChatMessage : Type where
  role : String
  content : String
deriving DecidableEq

/-- The JSON object a well-formed chat message parses to. -/
def ChatMessage.toJson (m : ChatMessage) : Json :=
  .obj [("role", .str m.role), ("content", .str m.content)]

/-- Whether a JSON value is an object. -/
def Json.isObj : Json → Bool
  | .obj _ => true
  | _ => false

/-- Whether a JSON value is an array. -/
def Json.isArr : Json → Bool
  | .arr _ => true
  | _ => false

/-- The role check on a well-formed message never throws and tests the
`role` field. -/
theorem roleIsSystem_toJson (m : ChatMessage) :
    roleIsSystem m.toJson = .ok (m.role == "system") := rfl

/-- `anySystem` on a list of well-formed messages never throws and computes
the boolean scan for a `system` role. -/
theorem anySystem_map (xs : List ChatMessage) :
    anySystem (xs.map ChatMessage.toJson)
      = .ok (xs.any fun m => m.role == "system") := by
  induction xs with
  | nil => rfl
  | cons m rest ih =>
      cases h : m.role == "system" <;>
        simp [anySystem, roleIsSystem_toJson, h, ih]

/-- `normalizeMessages` throws on any non-array value. -/
theorem normalizeMessages_not_arr (v : Json) (hv : v.isArr = false) :
    normalizeMessages v = .error () := by
  cases v <;> first | rfl | simp [Json.isArr] at hv

/-- Claim C1: for a chat request whose parsed `messages` array contains no
element with role `system`, the sequence dispatched to the inference
collaborator has length input + 1, its element at index 0 has role `system`
and content equal to the fixed instruction template, and the remaining
elements are the input sequence in order. -/
theorem spec_C1 (xs : List ChatMessage) (h : ∀ m ∈ xs, m.role ≠ "system") :
    chatPipeline (some (.obj [("messages", .arr (xs.map ChatMessage.toJson))]))
      = .ok { model := MODEL_ID
              messages := systemMessage :: xs.map ChatMessage.toJson
              max_tokens := 1024
              returnRawResponse := true }
    ∧ (systemMessage :: xs.map ChatMessage.toJson).length
        = (xs.map ChatMessage.toJson).length + 1
    ∧ (systemMessage :: xs.map ChatMessage.toJson).head?
        = some (Json.obj [("role", .str "system"), ("content", .str SYSTEM_PROMPT)])
    ∧ (systemMessage :: xs.map ChatMessage.toJson).tail
        = xs.map ChatMessage.toJson := by
  refine ⟨?_, rfl, rfl, rfl⟩
  have hany : (xs.any fun m => m.role == "system") = false := by
    simp only [List.any_eq_false, beq_iff_eq]
    exact h
  simp [chatPipeline, extractMessages, lookupField, normalizeMessages,
    anySystem_map, hany]

/-- Witness for C1 at the single user message `Hi`. -/
theorem spec_C1_witness :
    chatPipeline (some (.obj [("messages",
        .arr [ChatMessage.toJson ⟨"user", "Hi"⟩])]))
      = .ok { model := MODEL_ID
              messages := [systemMessage, ChatMessage.toJson ⟨"user", "Hi"⟩]
              max_tokens := 1024
              returnRawResponse := true } :=
  (spec_C1 [⟨"user", "Hi"⟩] (by intro m hm; simp at hm; subst hm; decide)).1

/-- Claim C2: for a chat request whose parsed `messages` array contains an
element with role `system` at any position, the sequence dispatched to the
inference collaborator is exactly the input sequence. -/
theorem spec_C2 (xs : List ChatMessage) (h : ∃ m ∈ xs, m.role = "system") :
    chatPipeline (some (.obj [("messages", .arr (xs.map ChatMessage.toJson))]))
      = .ok { model := MODEL_ID
              messages := xs.map ChatMessage.toJson
              max_tokens := 1024
              returnRawResponse := true } := by
  have hany : (xs.any fun m => m.role == "system") = true := by
    simp only [List.any_eq_true, beq_iff_eq]
    exact h
  simp [chatPipeline, extractMessages, lookupField, normalizeMessages,
    anySystem_map, hany]

/-- Witness for C2 at a caller-supplied system message followed by a user
message. -/
theorem spec_C2_witness :
    chatPipeline (some (.obj [("messages",
        .arr [ChatMessage.toJson ⟨"system", "X"⟩, ChatMessage.toJson ⟨"user", "Hi"⟩])]))
      = .ok { model := MODEL_ID
              messages := [ChatMessage.toJson ⟨"system", "X"⟩,
                           ChatMessage.toJson ⟨"user", "Hi"⟩]
              max_tokens := 1024
              returnRawResponse := true } :=
  spec_C2 [⟨"system", "X"⟩, ⟨"user", "Hi"⟩] ⟨⟨"system", "X"⟩, by simp⟩

/-- Claim C3: the chat handler is total over failures: if parsing or
normalization throws, or the collaborator call fails, the result is the
uniform 500 JSON error response (status 500, `content-type:
application/json`, exact body); no exception escapes (the handler is a
total function); and on success the result is the collaborator's response
itself. -/
theorem spec_C3 (ai : InferenceRequest → Except Unit Response) (body : Option Json) :
    errorResponse.status = 500
    ∧ errorResponse.headers = [("content-type", "application/json")]
    ∧ errorResponse.body = "\x7b\"error\":\"Failed to process request\"\x7d"
    ∧ (chatPipeline body = .error () → handleChatRequest ai body = errorResponse)
    ∧ (∀ req, chatPipeline body = .ok req → ai req = .error () →
        handleChatRequest ai body = errorResponse)
    ∧ (∀ req r, chatPipeline body = .ok req → ai req = .ok r →
        handleChatRequest ai body = r) := by
  refine ⟨rfl, rfl, rfl, ?_, ?_, ?_⟩
  · intro h
    simp [handleChatRequest, h]
  · intro req h hai
    simp [handleChatRequest, h, hai]
  · intro req r h hai
    simp [handleChatRequest, h, hai]

/-- Witness for C3: an unparsable body yields the error response, and with
a succeeding collaborator the collaborator's response is relayed. -/
theorem spec_C3_witness :
    handleChatRequest (fun _ => .error ()) none = errorResponse
    ∧ handleChatRequest (fun _ => .ok ⟨200, "stream", []⟩) (some (.obj []))
        = ⟨200, "stream", []⟩ :=
  ⟨(spec_C3 (fun _ => .error ()) none).2.2.2.1 rfl,
   (spec_C3 (fun _ => .ok ⟨200, "stream", []⟩) (some (.obj []))).2.2.2.2.2
     { model := MODEL_ID, messages := [systemMessage]
       max_tokens := 1024, returnRawResponse := true }
     ⟨200, "stream", []⟩ rfl rfl⟩

/-- Claim C4: a request to the chat endpoint path with a method other than
POST gets status 405 with body `Method not allowed`, independently of both
collaborators (neither is invoked: the response does not depend on them). -/
theorem spec_C4 (assets : Request → Response)
    (ai : InferenceRequest → Except Unit Response) (req : Request)
    (hpath : req.pathname = "/api/chat") (hmethod : req.method ≠ "POST") :
    fetch assets ai req
      = { status := 405, body := "Method not allowed", headers := [] } := by
  obtain ⟨p, m, b⟩ := req
  simp only at hpath hmethod
  subst hpath
  have hsw : jsStartsWith "/api/chat" "/api/" = true := by decide
  have hm : (m == "POST") = false := beq_eq_false_iff_ne.mpr hmethod
  simp [fetch, hsw, hm]

/-- Witness for C4: `GET /api/chat`. -/
theorem spec_C4_witness :
    fetch (fun _ => ⟨200, "asset", []⟩) (fun _ => .error ())
        ⟨"/api/chat", "GET", none⟩
      = { status := 405, body := "Method not allowed", headers := [] } :=
  spec_C4 _ _ _ rfl (by decide)

/-- Claim C5: a request whose path begins with the API prefix but is not
the chat endpoint path gets status 404 with body `Not found`, independently
of both collaborators. -/
theorem spec_C5 (assets : Request → Response)
    (ai : InferenceRequest → Except Unit Response) (req : Request)
    (h1 : jsStartsWith req.pathname "/api/" = true)
    (h2 : req.pathname ≠ "/api/chat") :
    fetch assets ai req
      = { status := 404, body := "Not found", headers := [] } := by
  obtain ⟨p, m, b⟩ := req
  simp only at h1 h2
  have hroot : (p == "/") = false := by
    apply beq_eq_false_iff_ne.mpr
    intro hp
    subst hp
    exact absurd h1 (by decide)
  have hchat : (p == "/api/chat") = false := beq_eq_false_iff_ne.mpr h2
  simp [fetch, hroot, hchat, h1]

/-- Witness for C5: `POST /api/unknown`. -/
theorem spec_C5_witness :
    fetch (fun _ => ⟨200, "asset", []⟩) (fun _ => .error ())
        ⟨"/api/unknown", "POST", none⟩
      = { status := 404, body := "Not found", headers := [] } :=
  spec_C5 _ _ _ (by decide) (by decide)

/-- Claim C6: a request whose path is the root path or does not begin with
the API prefix is delegated to the asset collaborator: the router's
response is exactly the collaborator's response for the original,
unmodified request. -/
theorem spec_C6 (assets : Request → Response)
    (ai : InferenceRequest → Except Unit Response) (req : Request)
    (h : req.pathname = "/" ∨ jsStartsWith req.pathname "/api/" = false) :
    fetch assets ai req = assets req := by
  obtain ⟨p, m, b⟩ := req
  simp only at h
  rcases h with h | h
  · subst h
    have hroot : (("/" : String) == "/") = true := by decide
    simp [fetch, hroot]
  · simp [fetch, h]

/-- Witness for C6: `GET /` goes to the asset collaborator. -/
theorem spec_C6_witness :
    fetch (fun _ => ⟨200, "asset", []⟩) (fun _ => .error ())
        ⟨"/", "GET", none⟩ = ⟨200, "asset", []⟩ :=
  spec_C6 (fun _ => ⟨200, "asset", []⟩) (fun _ => .error ())
    ⟨"/", "GET", none⟩ (Or.inl rfl)

/-- Claim C10: path matching is by exact string comparison: `/api` (no
trailing slash) and `/API/chat` (different case) are delegated to the asset
collaborator, and `/api/chat/` (trailing slash) gets the 404 response, for
every method and body. -/
theorem spec_C10 (assets : Request → Response)
    (ai : InferenceRequest → Except Unit Response) (m : String) (b : Option Json) :
    fetch assets ai ⟨"/api", m, b⟩ = assets ⟨"/api", m, b⟩
    ∧ fetch assets ai ⟨"/API/chat", m, b⟩ = assets ⟨"/API/chat", m, b⟩
    ∧ fetch assets ai ⟨"/api/chat/", m, b⟩
        = { status := 404, body := "Not found", headers := [] } := by
  refine ⟨?_, ?_, ?_⟩
  · have h : jsStartsWith "/api" "/api/" = false := by decide
    simp [fetch, h]
  · have h : jsStartsWith "/API/chat" "/api/" = false := by decide
    simp [fetch, h]
  · have h1 : jsStartsWith "/api/chat/" "/api/" = true := by decide
    simp [fetch, h1]

/-- Counterexample to claim C7: the body is the JSON number 42 — valid JSON
but not an object — yet the handler does not return the 500 error: it
proceeds to dispatch and relays the collaborator's response. -/
theorem spec_C7_counterexample :
    handleChatRequest (fun _ => .ok ⟨200, "stream", []⟩) (some (.num 42))
      = ⟨200, "stream", []⟩
    ∧ (⟨200, "stream", []⟩ : Response) ≠ errorResponse := by
  exact ⟨rfl, by decide⟩

/-- Claim C7 as amended: among valid-JSON non-object bodies only `null`
makes the destructuring throw (yielding the uniform 500 error); any other
non-object body (number, string, boolean, array) proceeds with an empty
message list, so the system message is injected and dispatch occurs with
exactly one message. -/
theorem spec_C7_amended (b : Json) (hobj : b.isObj = false) :
    (b = .null → ∀ ai, handleChatRequest ai (some b) = errorResponse)
    ∧ (b ≠ .null → chatPipeline (some b)
        = .ok { model := MODEL_ID
                messages := [systemMessage]
                max_tokens := 1024
                returnRawResponse := true }) := by
  constructor
  · rintro rfl ai
    rfl
  · intro hne
    cases b with
    | null => exact absurd rfl hne
    | obj fields => simp [Json.isObj] at hobj
    | bool v => rfl
    | num n => rfl
    | str s => rfl
    | arr elems => rfl

/-- Witness for the amended C7: a `null` body yields the error response; a
string body proceeds to dispatch with exactly the injected system
message. -/
theorem spec_C7_amended_witness :
    handleChatRequest (fun _ => .ok ⟨200, "stream", []⟩) (some .null)
      = errorResponse
    ∧ chatPipeline (some (.str "hello"))
        = .ok { model := MODEL_ID
                messages := [systemMessage]
                max_tokens := 1024
                returnRawResponse := true } :=
  ⟨(spec_C7_amended .null rfl).1 rfl _,
   (spec_C7_amended (.str "hello") rfl).2 (by intro h; exact Json.noConfusion h)⟩

/-- Counterexample to claim C8: a body whose `messages` field is the JSON
number 5 (present but not a message list) does not proceed as if the list
were empty: the `.some` call throws, dispatch never occurs, and the handler
returns the 500 error even though the collaborator would have succeeded. -/
theorem spec_C8_counterexample :
    chatPipeline (some (.obj [("messages", .num 5)])) = .error ()
    ∧ handleChatRequest (fun _ => .ok ⟨200, "stream", []⟩)
        (some (.obj [("messages", .num 5)])) = errorResponse
    ∧ errorResponse ≠ (⟨200, "stream", []⟩ : Response) := by
  exact ⟨rfl, rfl, by decide⟩

/-- Claim C8 as amended: an absent `messages` field defaults to the empty
sequence (dispatch occurs with exactly the injected system message), but a
present `messages` field that is not an array makes the handler throw at
the `.some` call and return the uniform 500 error. -/
theorem spec_C8_amended :
    (∀ fields, lookupField fields "messages" = none →
       chatPipeline (some (.obj fields))
         = .ok { model := MODEL_ID
                 messages := [systemMessage]
                 max_tokens := 1024
                 returnRawResponse := true })
    ∧ (∀ fields v, lookupField fields "messages" = some v → v.isArr = false →
        ∀ ai, handleChatRequest ai (some (.obj fields)) = errorResponse) := by
  constructor
  · intro fields h
    simp [chatPipeline, extractMessages, h, normalizeMessages, anySystem]
  · intro fields v h hv ai
    have hpipe : chatPipeline (some (.obj fields)) = .error () := by
      simp [chatPipeline, extractMessages, h, normalizeMessages_not_arr v hv]
    simp [handleChatRequest, hpipe]

/-- Witness for the amended C8: an object without a `messages` key
dispatches with one injected message; an object whose `messages` is a
string gets the error response. -/
theorem spec_C8_amended_witness :
    chatPipeline (some (.obj [("foo", .bool true)]))
      = .ok { model := MODEL_ID
              messages := [systemMessage]
              max_tokens := 1024
              returnRawResponse := true }
    ∧ handleChatRequest (fun _ => .ok ⟨200, "stream", []⟩)
        (some (.obj [("messages", .str "oops")])) = errorResponse :=
  ⟨spec_C8_amended.1 [("foo", .bool true)] rfl,
   spec_C8_amended.2 [("messages", .str "oops")] (.str "oops") rfl rfl _⟩

/-- Claim C9: whenever the parse/normalize pipeline succeeds, the inference
collaborator is invoked with the constant model identifier, the normalized
message sequence, `max_tokens` 1024 and the raw-streaming flag set; the
handler's result is determined by that single invocation, its success
response being the collaborator's response itself. -/
theorem spec_C9 (body : Json) (req : InferenceRequest)
    (h : chatPipeline (some body) = .ok req) :
    req.model = MODEL_ID ∧ req.max_tokens = 1024 ∧ req.returnRawResponse = true
    ∧ ∀ ai : InferenceRequest → Except Unit Response,
        handleChatRequest ai (some body)
          = match ai req with
            | .ok r => r
            | .error _ => errorResponse := by
  have hshape : req.model = MODEL_ID ∧ req.max_tokens = 1024
      ∧ req.returnRawResponse = true := by
    simp only [chatPipeline] at h
    cases hx : extractMessages body with
    | error e => simp [hx] at h
    | ok msgs =>
        simp only [hx] at h
        cases hn : normalizeMessages msgs with
        | error e => simp [hn] at h
        | ok normalized =>
            simp only [hn] at h
            injection h with h'
            subst h'
            exact ⟨rfl, rfl, rfl⟩
  refine ⟨hshape.1, hshape.2.1, hshape.2.2, ?_⟩
  intro ai
  unfold handleChatRequest
  rw [h]

/-- Witness for C9 at `{"messages": []}` with a succeeding collaborator. -/
theorem spec_C9_witness :
    (({ model := MODEL_ID
        messages := [systemMessage]
        max_tokens := 1024
        returnRawResponse := true } : InferenceRequest).model = MODEL_ID)
    ∧ handleChatRequest (fun _ => .ok ⟨200, "stream", []⟩)
        (some (.obj [("messages", .arr [])])) = ⟨200, "stream", []⟩ := by
  have h := spec_C9 (.obj [("messages", .arr [])])
    { model := MODEL_ID
      messages := [systemMessage]
      max_tokens := 1024
      returnRawResponse := true } rfl
  exact ⟨h.1, by rw [h.2.2.2 (fun _ => .ok ⟨200, "stream", []⟩)]⟩

end LlmChat
